import Mathlib

/-!
Shallow embedding of `builder/core/env.py` (aws-crt-builder): the `Env`
class, covering environment assembly (`Env.__init__`), the branch-detection
chain (`Env._get_git_branch`), and the publishing variable store
(`Variables.__setitem__`).  External collaborators (the filesystem, the
shell, `Project.find_project`, `Project.default_project`,
`DownloadSource.run`, `os.environ`, the `git` subprocess) are modelled as
inputs gathered in a `World` record; side effects are modelled as an
explicit event trace.

String primitives are modelled on `List Char` (ASCII inputs), so that all
definitions evaluate by kernel reduction.
-/

set_option maxHeartbeats 1000000

/-! ## String primitives (Python `str` operations, on `.data`) -/

/-- Python `s.startswith(pre)`. -/
def strStartsWith (s pre : String) : Bool := pre.data.isPrefixOf s.data

/-- Python `s.endswith(suf)`. -/
def strEndsWith (s suf : String) : Bool := suf.data.isSuffixOf s.data

/-- Python `s[n:]` (drop the first `n` characters). -/
def strDropChars (s : String) (n : Nat) : String := String.mk (s.data.drop n)

/-- Python `len(s)` (character count; inputs here are ASCII). -/
def strLen (s : String) : Nat := s.data.length

/-- Python `s == ""` as a truthiness test. -/
def strIsEmpty (s : String) : Bool := s.data.isEmpty

/-- Split a character list at every occurrence of `sep`, keeping empty
fields (Python `str.split(sep)` for a one-character separator). -/
def splitChar (sep : Char) : List Char → List (List Char)
  | [] => [[]]
  | c :: rest =>
    let r := splitChar sep rest
    if c = sep then [] :: r
    else
      match r with
      | [] => [[c]]
      | h :: t => (c :: h) :: t

/-- Python `s.split(sep)` for a one-character separator. -/
def strSplit (s : String) (sep : Char) : List String :=
  (splitChar sep s.data).map String.mk

/-- Strip characters satisfying `p` from both ends (Python `str.strip(chars)`). -/
def stripEnds (p : Char → Bool) (s : String) : String :=
  String.mk (((s.data.dropWhile p).reverse.dropWhile p).reverse)

/-- Models `line.strip('*').strip()` from `env.py` lines 159/164. -/
def stripStarWs (s : String) : String :=
  stripEnds Char.isWhitespace (stripEnds (fun c => c = '*') s)

/-- Python truthiness of `os.environ.get(...)`: `None` and `""` are falsy. -/
def truthy (o : Option String) : Bool := !strIsEmpty (o.getD "")

/-! ## Path model (`os.path` on a POSIX system) -/

/-- `os.path.sep` on POSIX. -/
def pathSep : Char := '/'

/-- Models `os.path.isabs`: a POSIX path is absolute iff it starts with a slash. -/
def isAbs (p : String) : Bool :=
  match p.data with
  | [] => false
  | c :: _ => c = '/'

/-- Models the two-argument `os.path.join`: an absolute second component
replaces the first; otherwise the components are glued with a single
separator (none added when the first already ends in one or is empty). -/
def joinPath (a b : String) : String :=
  if isAbs b then b
  else if a = "" then b
  else if strEndsWith a "/" then a ++ b
  else a ++ "/" ++ b

/-- Models `os.path.join(*parts)` for a non-empty list of parts. -/
def joinParts : List String → String
  | [] => ""
  | p :: rest => rest.foldl joinPath p

/-- Models `os.path.abspath` relative to an explicit working directory
`cwd`.  Of `normpath` only the bare `"."` case is modelled, the only form
the embedded source produces; paths appearing in this development are
otherwise already normalized. -/
def abspath (cwd p : String) : String :=
  if p = "." then cwd
  else if isAbs p then p else joinPath cwd p

/-! ## Branch detection (`Env._get_git_branch`, lines 128-189) -/

/-- Lines 156-163: scan the output lines for the first line marked with a
leading `*`; the scan breaks at that line, and the detached-head sentinel
`"(no branch)"` counts as no marked branch. -/
def findStarBranch : List String → Option String
  | [] => none
  | line :: rest =>
    if !strIsEmpty line && strStartsWith line "*" then
      let sb := stripStarWs line
      if sb = "(no branch)" then none else some sb
    else findStarBranch rest

/-- Lines 175-184: first listed branch that is not the detached-head
sentinel, with the remote-tracking `remotes/origin/` marker stripped. -/
def firstNonDetached : List String → Option String
  | [] => none
  | b :: rest =>
    if b = "(no branch)" then firstNonDetached rest
    else if strStartsWith b "remotes/origin/" then
      some (strDropChars b (strLen "remotes/origin/"))
    else some b

/-- Lines 156-184: parse the output of `git branch -a --contains HEAD`.
`none` means the parse produced no usable branch and control falls through
to the static default. -/
def parseGitBranchOutput (out : String) : Option String :=
  let lines := strSplit out '\n'
  let star := findStarBranch lines
  let bs := (lines.filter (fun b => !strIsEmpty b)).map stripStarWs
  match star with
  | some s => if strIsEmpty s then firstNonDetached bs else some s
  | none => firstNonDetached bs

/-- Lines 153-189: the version-control probe and the static fallback.
`gitProbe = none` models `subprocess.check_output` raising, swallowed by
the bare `except:` (line 185); the probe phase is total, so no failure
propagates out of branch detection. -/
def probePhase (gitProbe : Option String) : String :=
  match gitProbe with
  | none => "main"
  | some out =>
    match parseGitBranchOutput out with
    | some b => b
    | none => "main"

/-- Lines 128-189, `Env._get_git_branch`: the short-circuiting chain over
`TRAVIS_PULL_REQUEST_BRANCH`, `GITHUB_HEAD_REF`, `GITHUB_REF` and the git
probe.  `env` models `os.environ.get`. -/
def Env.getGitBranch (env : String → Option String) (gitProbe : Option String) : String :=
  let travis := env "TRAVIS_PULL_REQUEST_BRANCH"
  if truthy travis then travis.getD ""
  else
    let ghHead := env "GITHUB_HEAD_REF"
    let ghRef := env "GITHUB_REF"
    if truthy ghHead then ghHead.getD ""
    else if truthy ghRef && strStartsWith (ghRef.getD "") "refs/heads/" then
      strDropChars (ghRef.getD "") (strLen "refs/heads/")
    else probePhase gitProbe

/-! ## Data model -/

/-- A `Project` as seen by `env.py`.  `path` is the project's on-disk
location (`None` modelled as `none`); `resolved` records the verdict of the
external `Project.resolved()` method (builder/core/project.py, an external
collaborator: per the interface, resolved means the path is set and points
to a valid project definition). -/
structure Project where
  name : String
  path : Option String
  resolved : Bool
deriving DecidableEq

/-- Errors that can escape `Env.__init__` in the embedded model.
`attributeError` models Python `AttributeError` on a missing attribute;
`assertionError` models a failing `assert`; `configurationError` models the
`ConfigurationError` the spec prescribes (never raised by this source);
`downloadError` models a failure propagating out of `DownloadSource.run`. -/
inductive PyErr where
  | attributeError
  | assertionError
  | configurationError
  | downloadError
deriving DecidableEq

/-- Observable side effects of assembly, in program order.  `publish`
models `Env._publish_variable` (lines 125-126) forwarding to the
process-wide `Project._publish_variable` hook; the others model the shell
and search-scope mutations. -/
inductive Event where
  | publish (key value : String)
  | cd (dir : String)
  | addpathenv (var path : String)
  | searchDirsSet (dirs : List String)
  | searchDirsAppend (dirs : List String)
  | rm (dir : String)
  | mkdir (dir : String)
  | download (name branch dest : String)
  | useVariant
  | getConfigCall
deriving DecidableEq

/-- The `Variables` dict subclass (lines 25-29): a dict plus the log of
publication-hook invocations made by `__setitem__`. -/
structure VarStore where
  entries : List (String × String)
  hookLog : List (String × String)
deriving DecidableEq

/-- Python dict assignment on an insertion-ordered association list:
replace in place if the key exists, else append. -/
def dictSet : List (String × String) → String → String → List (String × String)
  | [], k, v => [(k, v)]
  | (k0, v0) :: rest, k, v =>
    if k0 = k then (k, v) :: rest else (k0, v0) :: dictSet rest k v

/-- Python dict lookup on an insertion-ordered association list. -/
def dictGet : List (String × String) → String → Option String
  | [], _ => none
  | (k0, v0) :: rest, k => if k0 = k then some v0 else dictGet rest k

/-- `Variables.__setitem__` (lines 26-28): store the pair via the
underlying dict, then invoke the publication hook once with the same
key/value. -/
def VarStore.setItem (s : VarStore) (k v : String) : VarStore :=
  { entries := dictSet s.entries k v, hookLog := s.hookLog ++ [(k, v)] }

/-- The `args` attribute of the incoming config (the parsed CLI
arguments).  Each field is `none` when the attribute is missing (its read
raises `AttributeError`); `project`'s value is itself optional because
`args.project` may be `None`. -/
structure Args where
  project : Option (Option String) := none
  cli_config : Option Unit := none
deriving DecidableEq

/-- The incoming `config` dict of `Env.__init__`, restricted to the keys
the source reads.  A `none` field models the key being absent from the
dict (so the attribute is missing on `self`).  `branch = none` also covers
an explicit `None` value (line 36 treats both alike via `getattr(...) or`),
and `variant`'s value is optional because it may be `None`. -/
structure Config where
  dryrun : Option Bool := none
  branch : Option String := none
  project : Option Project := none
  args : Option Args := none
  variant : Option (Option String) := none
  spec : Option Unit := none
deriving DecidableEq

/-- The merged configuration returned by the external
`project.get_config(spec, cli_config)` (line 84), restricted to the keys
read afterwards (lines 92-102). -/
structure BuildConfig where
  build_dir : Option String := none
  deps_dir : Option String := none
  install_dir : Option String := none
deriving DecidableEq

/-- The external collaborators of `Env.__init__`, as pure inputs:
`env` is `os.environ.get`; `gitProbe` the git subprocess output (`none` =
it raised); `cwd` the shell's initial working directory; `findProject` and
`defaultProject` the `Project` class lookups; `downloadOk` whether
`DownloadSource(...).run` completes (it raises otherwise); `getConfig` the
merged config produced by `project.get_config`; `isWin32` the
`sys.platform == 'win32'` test; `pathExists` is `os.path.exists`. -/
structure World where
  env : String → Option String
  gitProbe : Option String
  cwd : String
  findProject : String → List String → Project
  defaultProject : Option Project
  downloadOk : Bool
  getConfig : BuildConfig
  isWin32 : Bool
  pathExists : String → Bool

/-- The attributes `Env.__init__` sets on `self`, plus the search scope. -/
structure EnvState where
  dryrun : Bool
  branch : String
  launch_dir : String
  project : Option Project
  root_dir : Option String
  build_dir : Option String
  deps_dir : Option String
  install_dir : Option String
  varStore : VarStore
  search_dirs : List String
deriving DecidableEq

/-! ## Environment assembly (`Env.__init__`, lines 16-123) -/

/-- Line 36: use a truthy configured branch, else probe. -/
def effBranch (w : World) (cfg : Config) : String :=
  match cfg.branch with
  | some b => if strIsEmpty b then Env.getGitBranch w.env w.gitProbe else b
  | none => Env.getGitBranch w.env w.gitProbe

/-- Line 43: `launch_dir = os.path.abspath(shell.cwd())`. -/
def launchDir (w : World) : String := abspath w.cwd w.cwd

/-- Lines 51-52: keep a truthy supplied project, else ask
`Project.default_project()`. -/
def effProject (w : World) (cfg : Config) : Option Project :=
  match cfg.project with
  | some p => some p
  | none => w.defaultProject

/-- Lines 58-64: split a requested name on `os.path.sep`; a multi-part
name contributes the absolute path of the joined parts as a hint, and the
bare name is the final segment. -/
def splitProjectArg (cwd name : String) : String × List String :=
  let parts := strSplit name pathSep
  let hints : List String :=
    if 1 < parts.length then [abspath cwd (joinParts parts)] else []
  (parts.getLastD "", hints)

/-- Lines 66-77, given the project returned by the first
`Project.find_project` call: if its path is falsy, run the downloader
(failure propagates), re-look the project up with the current directory as
hint, and `assert project.resolved()` (line 75) — a failing assert
surfaces as `AssertionError`. -/
def locateFound (w : World) (branch : String) (project : Project) :
    Except PyErr (Project × List Event) :=
  if strIsEmpty (project.path.getD "") then
    if w.downloadOk then
      let project2 := w.findProject project.name [abspath w.cwd "."]
      if project2.resolved then
        Except.ok (project2, [Event.download project.name branch "."])
      else Except.error PyErr.assertionError
    else Except.error PyErr.downloadError
  else Except.ok (project, [])

/-- Lines 56-77: resolve a requested project name. -/
def locateProject (w : World) (branch : String) (name : String) :
    Except PyErr (Project × List Event) :=
  let bh := splitProjectArg w.cwd name
  locateFound w branch (w.findProject bh.1 bh.2)

/-- Line 87: `root_dir = os.path.abspath(self.project.path)` (before the
`cd`, so relative to the launch directory). -/
def rootDirOf (w : World) (proj : Project) : String :=
  abspath w.cwd (proj.path.getD "")

/-- Lines 92-93: `build_dir` from the merged config, default
`root_dir/build`, made absolute (after the `cd` on line 89, so relative
paths resolve against `root_dir`). -/
def buildDirOf (w : World) (proj : Project) : String :=
  abspath (rootDirOf w proj)
    (w.getConfig.build_dir.getD (joinPath (rootDirOf w proj) "build"))

/-- Lines 96-97: `deps_dir` from the merged config, default
`build_dir/deps`, made absolute. -/
def depsDirOf (w : World) (proj : Project) : String :=
  abspath (rootDirOf w proj)
    (w.getConfig.deps_dir.getD (joinPath (buildDirOf w proj) "deps"))

/-- Lines 100-101: `install_dir` from the merged config, default
`build_dir/install`, made absolute. -/
def installDirOf (w : World) (proj : Project) : String :=
  abspath (rootDirOf w proj)
    (w.getConfig.install_dir.getD (joinPath (buildDirOf w proj) "install"))

/-- Lines 83-123: the continuation of `Env.__init__` once a resolved
project is in hand.  Reads `self.variant`, `self.spec` and
`self.args.cli_config` (AttributeError when missing), builds the merged
config, derives and publishes `root_dir`/`build_dir`/`deps_dir`/
`install_dir` (the `abspath` calls after the `cd` on line 89 resolve
relative to `root_dir`), extends the search scope, and destroys/creates
the build directory. -/
def Env.initResolved (w : World) (cfg : Config) (args : Args) (proj : Project)
    (base : EnvState) : Except PyErr (EnvState × List Event) :=
  match cfg.variant with
  | none => Except.error PyErr.attributeError
  | some _ =>
  match cfg.spec with
  | none => Except.error PyErr.attributeError
  | some _ =>
  match args.cli_config with
  | none => Except.error PyErr.attributeError
  | some _ =>
  let root_dir := rootDirOf w proj
  let vars1 := VarStore.setItem base.varStore "root_dir" root_dir
  let build_dir := buildDirOf w proj
  let vars2 := VarStore.setItem vars1 "build_dir" build_dir
  let deps_dir := depsDirOf w proj
  let vars3 := VarStore.setItem vars2 "deps_dir" deps_dir
  let install_dir := installDirOf w proj
  let vars4 := VarStore.setItem vars3 "install_dir" install_dir
  let pathEvents : List Event :=
    if w.isWin32 then
      [Event.addpathenv "PATH" (abspath root_dir (joinPath install_dir "bin"))]
    else
      [Event.addpathenv "LD_LIBRARY_PATH" (abspath root_dir (joinPath install_dir "lib64")),
       Event.addpathenv "LD_LIBRARY_PATH" (abspath root_dir (joinPath install_dir "lib"))]
  let st : EnvState :=
    { base with
      project := some proj
      root_dir := some root_dir
      build_dir := some build_dir
      deps_dir := some deps_dir
      install_dir := some install_dir
      varStore := vars4
      search_dirs := base.search_dirs ++ [build_dir, root_dir, deps_dir] }
  let ev : List Event :=
    [Event.useVariant, Event.getConfigCall,
     Event.publish "root_dir" root_dir, Event.cd root_dir,
     Event.publish "build_dir" build_dir,
     Event.publish "deps_dir" deps_dir,
     Event.publish "install_dir" install_dir]
    ++ pathEvents
    ++ [Event.searchDirsAppend [build_dir, root_dir, deps_dir]]
    ++ (if w.pathExists build_dir then [Event.rm build_dir] else [])
    ++ [Event.mkdir build_dir]
  Except.ok (st, ev)

/-- `Env.__init__` (lines 16-123).  Returns the assembled state and the
event trace, or the Python exception that escaped. -/
def Env.init (w : World) (cfg : Config) : Except PyErr (EnvState × List Event) :=
  let dryrun := cfg.dryrun.getD false
  let branch := effBranch w cfg
  let launch_dir := launchDir w
  let search0 : List String := [launch_dir]
  let ev0 : List Event := [Event.searchDirsSet search0]
  let project0 : Option Project := effProject w cfg
  match cfg.args with
  | none => Except.error PyErr.attributeError
  | some args =>
  match args.project with
  | none => Except.error PyErr.attributeError
  | some argProject =>
  let nameReq := argProject.getD ""
  let afterLookup : Except PyErr (Option Project × List Event) :=
    if strIsEmpty nameReq then Except.ok (project0, [])
    else (locateProject w branch nameReq).map (fun pe => (some pe.1, pe.2))
  match afterLookup with
  | Except.error e => Except.error e
  | Except.ok (projOpt, ev1) =>
  let base : EnvState :=
    { dryrun := dryrun, branch := branch, launch_dir := launch_dir,
      project := projOpt, root_dir := none, build_dir := none,
      deps_dir := none, install_dir := none,
      varStore := { entries := [], hookLog := [] },
      search_dirs := search0 }
  match projOpt with
  | none => Except.ok (base, ev0 ++ ev1)
  | some proj =>
    if proj.resolved then
      match Env.initResolved w cfg args proj base with
      | Except.error e => Except.error e
      | Except.ok (st, ev2) => Except.ok (st, ev0 ++ ev1 ++ ev2)
    else Except.ok (base, ev0 ++ ev1)

/-- Event classifiers used to state trace properties. -/
def Event.isDirPublish : Event → Bool
  | Event.publish k _ => k = "build_dir" || k = "deps_dir" || k = "install_dir"
  | _ => false

def Event.isDestroyCreate : Event → Bool
  | Event.rm _ => true
  | Event.mkdir _ => true
  | _ => false

def Event.isDownload : Event → Bool
  | Event.download _ _ _ => true
  | _ => false

deriving instance DecidableEq for Except


/-! ## Concrete worlds and configs used to instantiate theorems -/

/-- A baseline world: POSIX, empty environment, failing git probe, launch
directory `/cwd`, every project discoverable under `/cwd`, successful
downloads, empty merged config, no pre-existing paths. -/
def wBase : World :=
  { env := fun _ => none
    gitProbe := none
    cwd := "/cwd"
    findProject := fun n _ => { name := n, path := some ("/cwd/" ++ n), resolved := true }
    defaultProject := none
    downloadOk := true
    getConfig := {}
    isWin32 := false
    pathExists := fun _ => false }

/-- Parsed args carrying no project name. -/
def argsNoName : Args := { project := some none, cli_config := some () }

/-- A config whose parsed args request project `foo`. -/
def cfgFoo : Config :=
  { branch := some "b"
    args := some { project := some (some "foo"), cli_config := some () }
    variant := some none
    spec := some () }

/-- World in which no project can ever be resolved: every lookup returns a
bare reference (no path, unresolved), downloads report success. -/
def wNeverFound : World :=
  { wBase with findProject := fun n _ => { name := n, path := none, resolved := false } }

/-- A resolved project object as it would be supplied directly in the
incoming config. -/
def projSupplied : Project := { name := "p", path := some "/p", resolved := true }

/-- An unresolved project object supplied directly in the incoming config. -/
def projUnresolved : Project := { name := "p", path := none, resolved := false }

/-- Config supplying a project object while the parsed args also request a
different project by name. -/
def cfgSuppliedPlusName : Config :=
  { branch := some "b"
    project := some projSupplied
    args := some { project := some (some "other"), cli_config := some () }
    variant := some none
    spec := some () }

/-- Config supplying an unresolved project object and no requested name. -/
def cfgSuppliedUnresolved : Config :=
  { project := some projUnresolved, args := some argsNoName }

/-- Config with parsed args but nothing else (no project, none discoverable). -/
def cfgNothing : Config := { args := some argsNoName }

/-- Config for exercising the resolved continuation. -/
def cfgResolved : Config :=
  { branch := some "b", project := some projSupplied, args := some argsNoName
    variant := some none, spec := some () }

/-- An early-return `EnvState` over `wBase`: branch defaults to `main`,
launch directory `/cwd`, nothing else assembled. -/
def earlyState (p : Option Project) : EnvState :=
  { dryrun := false, branch := "main", launch_dir := "/cwd", project := p
    root_dir := none, build_dir := none, deps_dir := none, install_dir := none
    varStore := { entries := [], hookLog := [] }, search_dirs := ["/cwd"] }

/-- World with every filesystem path already existing (forces the
destroy-before-create branch). -/
def wExisting : World := { wBase with pathExists := fun _ => true }

/-! ## Helper lemmas -/

theorem string_data_append (a b : String) : (a ++ b).data = a.data ++ b.data := rfl

theorem isAbs_append (a b : String) (h : isAbs a = true) : isAbs (a ++ b) = true := by
  unfold isAbs at h ⊢
  rw [string_data_append]
  cases hd : a.data with
  | nil => rw [hd] at h; simp at h
  | cons c t =>
    rw [hd] at h
    rw [List.cons_append]
    simpa using h

theorem isAbs_joinPath (a b : String) (h : isAbs a = true) :
    isAbs (joinPath a b) = true := by
  unfold joinPath
  by_cases hb : isAbs b = true
  · simp [hb]
  · have hne : ¬a = "" := by
      intro he; rw [he] at h; simp [isAbs] at h
    by_cases hs : strEndsWith a "/" = true
    · simp [hb, hne, hs, isAbs_append a b h]
    · simp [hb, hne, hs, isAbs_append (a ++ "/") b (isAbs_append a "/" h)]

theorem isAbs_abspath (cwd p : String) (h : isAbs cwd = true) :
    isAbs (abspath cwd p) = true := by
  unfold abspath
  by_cases hp : p = "."
  · simp [hp, h]
  · by_cases ha : isAbs p = true
    · simp [hp, ha]
    · simp [hp, ha, isAbs_joinPath cwd p h]

theorem isAbs_ne_dot (p : String) (h : isAbs p = true) : p ≠ "." := by
  intro he; rw [he] at h; simp [isAbs] at h

theorem abspath_of_isAbs (cwd p : String) (h : isAbs p = true) :
    abspath cwd p = p := by
  unfold abspath
  simp [isAbs_ne_dot p h, h]

theorem dictGet_dictSet (l : List (String × String)) (k v : String) :
    dictGet (dictSet l k v) k = some v := by
  induction l with
  | nil => simp [dictSet, dictGet]
  | cons hd t ih =>
    obtain ⟨k0, v0⟩ := hd
    by_cases hk : k0 = k
    · simp [dictSet, dictGet, hk]
    · simp [dictSet, dictGet, hk, ih]

/-! ## Claim theorems -/

/-- C9 (confirmed): every insertion through `Variables.__setitem__` stores
the pair (it becomes the value the dict reports for that key) and fires
the process-wide publication hook exactly once, with the same key and
value appended to the hook log; there is no insertion through this
operation without that single hook invocation. -/
theorem setItem_stores_and_publishes_once (s : VarStore) (k v : String) :
    (VarStore.setItem s k v).hookLog = s.hookLog ++ [(k, v)] ∧
    dictGet (VarStore.setItem s k v).entries k = some v := by
  exact ⟨rfl, dictGet_dictSet s.entries k v⟩

/-- C5 (confirmed): with the CI branch-signal variables carrying no usable
signal (pull-request-branch and head-ref falsy, ref not branch-shaped) and
the version-control probe either raising (`gitProbe = none`, swallowed by
the bare `except:`) or parsing to no usable branch, branch detection
returns the static default `"main"`; the probe failure never escapes
(`Env.getGitBranch` is total in `gitProbe`). -/
theorem branch_falls_back_to_main (env : String → Option String)
    (gitProbe : Option String)
    (h1 : truthy (env "TRAVIS_PULL_REQUEST_BRANCH") = false)
    (h2 : truthy (env "GITHUB_HEAD_REF") = false)
    (h3 : strStartsWith ((env "GITHUB_REF").getD "") "refs/heads/" = false)
    (h4 : gitProbe = none ∨
          ∃ out, gitProbe = some out ∧ parseGitBranchOutput out = none) :
    Env.getGitBranch env gitProbe = "main" := by
  simp only [Env.getGitBranch]
  rw [h1, h2, h3]
  simp only [Bool.false_eq_true, if_false, Bool.and_false]
  rcases h4 with h | ⟨out, rfl, hp⟩
  · rw [h]; rfl
  · simp [probePhase, hp]

/-- C5 witness: empty environment and a raising probe give `"main"`. -/
theorem branch_falls_back_to_main_witness :
    Env.getGitBranch (fun _ => none) none = "main" :=
  branch_falls_back_to_main (fun _ => none) none rfl rfl rfl (Or.inl rfl)

/-- Environment carrying the Travis variable set (to the empty string, as
Travis does on non-pull-request builds) together with a head-ref value. -/
def envTravisEmpty : String → Option String :=
  fun k =>
    if k = "TRAVIS_PULL_REQUEST_BRANCH" then some ""
    else if k = "GITHUB_HEAD_REF" then some "feature-x" else none

/-- C4 counterexample: the pull-request-branch variable is *set* (to the
empty string), yet `resolve()` does not return its value verbatim — it
falls past it to the head-ref signal.  So "if the variable is set, its
value is returned verbatim regardless of all other signals" is false as
stated. -/
theorem branch_chain_empty_travis_counterexample :
    envTravisEmpty "TRAVIS_PULL_REQUEST_BRANCH" = some "" ∧
    Env.getGitBranch envTravisEmpty none = "feature-x" ∧
    ("feature-x" : String) ≠ "" := by
  refine ⟨rfl, by decide, by decide⟩

/-- C4 (corrected): the branch-detection priority chain, with "set"
amended to "set to a non-empty value": a non-empty pull-request-branch
value is returned verbatim regardless of other signals; otherwise a
non-empty head-ref value is returned verbatim; otherwise a ref value with
the `refs/heads/` prefix is returned with the prefix stripped; and a ref
value without that prefix falls through to the version-control probe
phase. -/
theorem branch_priority_chain (env : String → Option String)
    (gitProbe : Option String) :
    (∀ v, env "TRAVIS_PULL_REQUEST_BRANCH" = some v → v ≠ "" →
      Env.getGitBranch env gitProbe = v) ∧
    (truthy (env "TRAVIS_PULL_REQUEST_BRANCH") = false →
      ∀ v, env "GITHUB_HEAD_REF" = some v → v ≠ "" →
        Env.getGitBranch env gitProbe = v) ∧
    (truthy (env "TRAVIS_PULL_REQUEST_BRANCH") = false →
      truthy (env "GITHUB_HEAD_REF") = false →
      ∀ v, env "GITHUB_REF" = some v → strStartsWith v "refs/heads/" = true →
        Env.getGitBranch env gitProbe = strDropChars v (strLen "refs/heads/")) ∧
    (truthy (env "TRAVIS_PULL_REQUEST_BRANCH") = false →
      truthy (env "GITHUB_HEAD_REF") = false →
      ∀ v, env "GITHUB_REF" = some v → strStartsWith v "refs/heads/" = false →
        Env.getGitBranch env gitProbe = probePhase gitProbe) := by
  have hne : ∀ v : String, v ≠ "" → strIsEmpty v = false := by
    intro v hv
    cases hd : v.data with
    | nil => exact absurd (String.ext hd) hv
    | cons c t => simp [strIsEmpty, hd]
  refine ⟨?_, ?_, ?_, ?_⟩
  · intro v hv hvne
    simp only [Env.getGitBranch]
    rw [hv]
    simp [truthy, hne v hvne]
  · intro h1 v hv hvne
    simp only [Env.getGitBranch]
    rw [h1, hv]
    simp [truthy, hne v hvne]
  · intro h1 h2 v hv hpre
    have hvne : v ≠ "" := by
      intro he
      rw [he] at hpre
      exact absurd hpre (by decide)
    simp only [Env.getGitBranch]
    rw [h1, h2, hv]
    simp [truthy, hne v hvne, hpre]
  · intro h1 h2 v hv hpre
    simp only [Env.getGitBranch]
    rw [h1, h2, hv]
    simp [hpre]

/-- Environment with only a non-empty pull-request-branch signal. -/
def envTravisSet : String → Option String :=
  fun k => if k = "TRAVIS_PULL_REQUEST_BRANCH" then some "feature-x" else none

/-- C4 witness: a non-empty pull-request-branch value is returned
verbatim. -/
theorem branch_priority_chain_witness :
    Env.getGitBranch envTravisSet none = "feature-x" :=
  (branch_priority_chain envTravisSet none).1 "feature-x" rfl (by decide)

theorem strIsEmpty_nil : strIsEmpty "" = true := rfl

/-- Any successful run of the resolved-project continuation records the
given project in the state and performs no download. -/
theorem initResolved_project_no_download (w : World) (cfg : Config) (args : Args)
    (proj : Project) (base : EnvState) (st : EnvState) (ev : List Event)
    (h : Env.initResolved w cfg args proj base = Except.ok (st, ev)) :
    st.project = some proj ∧ ev.filter Event.isDownload = [] := by
  unfold Env.initResolved at h
  cases hvar : cfg.variant with
  | none => rw [hvar] at h; exact absurd h (by simp)
  | some vv =>
  rw [hvar] at h
  cases hspec : cfg.spec with
  | none => rw [hspec] at h; exact absurd h (by simp)
  | some sv =>
  rw [hspec] at h
  cases hcli : args.cli_config with
  | none => rw [hcli] at h; exact absurd h (by simp)
  | some cv =>
  rw [hcli] at h
  simp only [Except.ok.injEq, Prod.mk.injEq] at h
  obtain ⟨hst, hev⟩ := h
  subst hst
  subst hev
  constructor
  · rfl
  · cases hw : w.isWin32 <;>
      cases hpe : w.pathExists (buildDirOf w proj) <;>
      simp [hw, hpe, Event.isDownload, List.filter_append, List.filter]

/-- C10 (confirmed): beyond the single documented default (`dryrun`),
assembly unconditionally dereferences `self.args` and then
`self.args.project`, and — once a project resolves — `self.variant`,
`self.spec` and `self.args.cli_config`; a config that does not supply any
one of these attributes makes construction raise `AttributeError`
instead of completing or returning a defined error. -/
theorem init_missing_attribute_raises (w : World) (cfg : Config) :
    (cfg.args = none → Env.init w cfg = Except.error PyErr.attributeError) ∧
    (∀ args, cfg.args = some args → args.project = none →
      Env.init w cfg = Except.error PyErr.attributeError) ∧
    (∀ args P, cfg.args = some args → args.project = some none →
      cfg.project = some P → P.resolved = true → cfg.variant = none →
      Env.init w cfg = Except.error PyErr.attributeError) ∧
    (∀ args P vv, cfg.args = some args → args.project = some none →
      cfg.project = some P → P.resolved = true → cfg.variant = some vv →
      cfg.spec = none → Env.init w cfg = Except.error PyErr.attributeError) ∧
    (∀ args P vv, cfg.args = some args → args.project = some none →
      cfg.project = some P → P.resolved = true → cfg.variant = some vv →
      cfg.spec = some () → args.cli_config = none →
      Env.init w cfg = Except.error PyErr.attributeError) := by
  refine ⟨?_, ?_, ?_, ?_, ?_⟩
  · intro h
    simp [Env.init, h]
  · intro args h1 h2
    simp [Env.init, h1, h2]
  · intro args P h1 h2 h3 h4 h5
    simp [Env.init, h1, h2, strIsEmpty_nil, effProject, h3, h4,
      Env.initResolved, h5]
  · intro args P vv h1 h2 h3 h4 h5 h6
    simp [Env.init, h1, h2, strIsEmpty_nil, effProject, h3, h4,
      Env.initResolved, h5, h6]
  · intro args P vv h1 h2 h3 h4 h5 h6 h7
    simp [Env.init, h1, h2, strIsEmpty_nil, effProject, h3, h4,
      Env.initResolved, h5, h6, h7]

/-- C10 witness: the empty config (no `args` attribute) raises
`AttributeError`. -/
theorem init_missing_attribute_raises_witness :
    Env.init wBase {} = Except.error PyErr.attributeError :=
  (init_missing_attribute_raises wBase {}).1 rfl

/-- C8 (confirmed): when no project name is requested and the project
slot resolves to nothing usable (none supplied or discoverable, or an
unresolved one), assembly returns early: the state carries no config-built
directories (`root_dir`, `build_dir`, `deps_dir`, `install_dir` all
unset), the variable store is untouched (no entries, no hook firings), the
search scope still holds only the launch directory, and the trace shows
only the initial search-scope initialisation — no publish, no `cd`, no
scope extension, no `rm`, no `mkdir`. -/
theorem init_unresolved_early_return (w : World) (cfg : Config) (args : Args)
    (v : Option String)
    (hargs : cfg.args = some args) (hap : args.project = some v)
    (hv : v.getD "" = "")
    (hproj : effProject w cfg = none ∨
             ∃ p, effProject w cfg = some p ∧ p.resolved = false) :
    Env.init w cfg =
      Except.ok
        ({ dryrun := cfg.dryrun.getD false
           branch := effBranch w cfg
           launch_dir := launchDir w
           project := effProject w cfg
           root_dir := none, build_dir := none
           deps_dir := none, install_dir := none
           varStore := { entries := [], hookLog := [] }
           search_dirs := [launchDir w] },
         [Event.searchDirsSet [launchDir w]]) := by
  simp only [Env.init]
  simp only [hargs, hap, hv, strIsEmpty_nil, if_true]
  rcases hproj with h | ⟨p, hp, hres⟩
  · rw [h]
    simp
  · rw [hp]
    simp [hres, hp]

/-- C8 witness: no project supplied, requested, or discoverable — early
return with only the scope initialisation in the trace. -/
theorem init_unresolved_early_return_witness :
    Env.init wBase cfgNothing =
      Except.ok (earlyState none, [Event.searchDirsSet ["/cwd"]]) :=
  init_unresolved_early_return wBase cfgNothing argsNoName none rfl rfl rfl
    (Or.inl rfl)

/-- C3 counterexample: the incoming configuration supplies a project
object, yet because the parsed args also carry a name (`"other"`), the
name-based lookup runs and its result replaces the supplied project — the
assembled state holds the looked-up project, not the supplied one.  This
falsifies "assembly uses that project and performs no name-based lookup
... regardless of any project name also present in the parsed
arguments". -/
theorem init_supplied_project_overridden_counterexample :
    cfgSuppliedPlusName.project = some projSupplied ∧
    (Env.init wBase cfgSuppliedPlusName).map (fun r => r.1.project) =
      Except.ok (some { name := "other", path := some "/cwd/other", resolved := true }) ∧
    ({ name := "other", path := some "/cwd/other", resolved := true } : Project)
      ≠ projSupplied := by
  refine ⟨rfl, by decide, by decide⟩

/-- C3 (corrected): a supplied project object skips only the
default-project discovery; it is used untouched — and no download is
performed — exactly when the parsed args carry no project name.  (When a
name is present, the name-based lookup still runs and overrides the
supplied project.) -/
theorem init_supplied_project_no_name_skips_lookup (w : World) (cfg : Config)
    (args : Args) (v : Option String) (P : Project)
    (hP : cfg.project = some P) (hargs : cfg.args = some args)
    (hap : args.project = some v) (hv : v.getD "" = "") :
    ∀ st ev, Env.init w cfg = Except.ok (st, ev) →
      st.project = some P ∧ ev.filter Event.isDownload = [] := by
  intro st ev hok
  have hPP : effProject w cfg = some P := by simp [effProject, hP]
  simp only [Env.init] at hok
  simp only [hargs, hap, hv, strIsEmpty_nil, if_true, hPP] at hok
  cases hres : P.resolved with
  | false =>
    rw [hres] at hok
    simp only [Bool.false_eq_true, if_false, Except.ok.injEq, Prod.mk.injEq] at hok
    obtain ⟨hst, hev⟩ := hok
    subst hst
    subst hev
    exact ⟨rfl, rfl⟩
  | true =>
    rw [hres] at hok
    simp only [if_true] at hok
    cases hIR : Env.initResolved w cfg args P
        { dryrun := cfg.dryrun.getD false, branch := effBranch w cfg,
          launch_dir := launchDir w, project := some P, root_dir := none,
          build_dir := none, deps_dir := none, install_dir := none,
          varStore := { entries := [], hookLog := [] },
          search_dirs := [launchDir w] } with
    | error e => rw [hIR] at hok; exact absurd hok (by simp)
    | ok r =>
      obtain ⟨st2, ev2⟩ := r
      rw [hIR] at hok
      simp only [Except.ok.injEq, Prod.mk.injEq] at hok
      obtain ⟨hst, hev⟩ := hok
      subst hst
      subst hev
      have h2 := initResolved_project_no_download w cfg args P _ st2 ev2 hIR
      refine ⟨h2.1, ?_⟩
      simp [List.filter_append, h2.2, Event.isDownload]

/-- C3 witness: a supplied (unresolved) project with no requested name is
kept as-is and nothing is downloaded. -/
theorem init_supplied_project_no_name_skips_lookup_witness :
    (earlyState (some projUnresolved)).project = some projUnresolved ∧
    List.filter Event.isDownload [Event.searchDirsSet ["/cwd"]] = [] :=
  init_supplied_project_no_name_skips_lookup wBase cfgSuppliedUnresolved
    argsNoName none projUnresolved rfl rfl rfl rfl
    (earlyState (some projUnresolved)) [Event.searchDirsSet ["/cwd"]]
    (by decide)

/-- C1 counterexample: initial lookup unresolved, download reports
success, re-lookup still unresolved — assembly aborts, but with an
`AssertionError` (from `assert project.resolved()`, line 75), not with the
`ConfigurationError` the claim states. -/
theorem init_reresolution_failure_counterexample :
    Env.init wNeverFound cfgFoo = Except.error PyErr.assertionError ∧
    Env.init wNeverFound cfgFoo ≠ Except.error PyErr.configurationError := by
  refine ⟨by decide, by decide⟩

/-- C1 (corrected): if the initial lookup returns a project with no path,
the download collaborator completes successfully, and the re-run lookup
(with the download destination as hint) still yields an unresolved
project, then assembly fails fatally — but via the failing
`assert project.resolved()`, i.e. an `AssertionError`, not a
`ConfigurationError`. -/
theorem init_reresolution_failure_asserts (w : World) (cfg : Config)
    (args : Args) (name : String)
    (hargs : cfg.args = some args) (hap : args.project = some (some name))
    (hname : strIsEmpty name = false)
    (h1 : strIsEmpty ((w.findProject (splitProjectArg w.cwd name).1
            (splitProjectArg w.cwd name).2).path.getD "") = true)
    (hdl : w.downloadOk = true)
    (h2 : (w.findProject (w.findProject (splitProjectArg w.cwd name).1
            (splitProjectArg w.cwd name).2).name [abspath w.cwd "."]).resolved
            = false) :
    Env.init w cfg = Except.error PyErr.assertionError := by
  simp only [Env.init]
  simp only [hargs, hap, Option.getD_some, hname, Bool.false_eq_true, if_false]
  simp only [locateProject, locateFound]
  simp only [h1, if_true, hdl, h2, Bool.false_eq_true, if_false]
  rfl

/-- C1 witness: concrete world in which nothing is ever resolvable but the
download reports success — assembly ends in `AssertionError`. -/
theorem init_reresolution_failure_asserts_witness :
    Env.init wNeverFound cfgFoo = Except.error PyErr.assertionError :=
  init_reresolution_failure_asserts wNeverFound cfgFoo
    { project := some (some "foo"), cli_config := some () } "foo"
    rfl rfl (by decide) (by decide) rfl (by decide)

/-- C2 counterexample: for the requested name `"libs/foo"` (with the
launch directory `/cwd`), the bare name is `"foo"` as claimed, but the
injected hint is `/cwd/libs/foo` — the absolute path of the *whole* name —
and not `/cwd/libs`, the absolute path of the directory portion that the
claim states. -/
theorem split_hint_counterexample :
    (splitProjectArg "/cwd" "libs/foo").1 = "foo" ∧
    (splitProjectArg "/cwd" "libs/foo").2 = ["/cwd/libs/foo"] ∧
    (splitProjectArg "/cwd" "libs/foo").2 ≠ [abspath "/cwd" "libs"] := by
  refine ⟨by decide, by decide, by decide⟩

/-- C2 (corrected): for every requested name containing a path separator,
the lookup is performed with the bare name equal to the final path segment
and with a single hint equal to the absolute path of the *whole*
separator-joined name (not of its directory portion alone). -/
theorem lookup_uses_last_segment_and_joined_hint (w : World)
    (branch name : String) (h : 1 < (strSplit name pathSep).length) :
    locateProject w branch name =
      locateFound w branch
        (w.findProject ((strSplit name pathSep).getLastD "")
          [abspath w.cwd (joinParts (strSplit name pathSep))]) := by
  unfold locateProject splitProjectArg
  simp [h]

/-- C2 witness: looking up `"libs/foo"` consults the finder with bare name
`"foo"` and hint `/cwd/libs/foo`. -/
theorem lookup_uses_last_segment_and_joined_hint_witness :
    locateProject wBase "b" "libs/foo" =
      locateFound wBase "b" (wBase.findProject "foo" ["/cwd/libs/foo"]) :=
  lookup_uses_last_segment_and_joined_hint wBase "b" "libs/foo" (by decide)

/-- C6 (confirmed): whenever the merged configuration omits the directory
keys, the resolved-project continuation derives `build_dir` as
`root_dir/build`, `deps_dir` as `build_dir/deps` and `install_dir` as
`build_dir/install`; each of the three is an absolute path, each is stored
in the state, and they are published through the variable store in exactly
the order build_dir, deps_dir, install_dir. -/
theorem init_default_dirs (w : World) (cfg : Config) (args : Args)
    (proj : Project) (base : EnvState) (vv : Option String)
    (hcwd : isAbs w.cwd = true)
    (hvar : cfg.variant = some vv) (hspec : cfg.spec = some ())
    (hcli : args.cli_config = some ())
    (hbc : w.getConfig.build_dir = none) (hdc : w.getConfig.deps_dir = none)
    (hic : w.getConfig.install_dir = none) :
    buildDirOf w proj = joinPath (rootDirOf w proj) "build" ∧
    depsDirOf w proj = joinPath (buildDirOf w proj) "deps" ∧
    installDirOf w proj = joinPath (buildDirOf w proj) "install" ∧
    isAbs (buildDirOf w proj) = true ∧
    isAbs (depsDirOf w proj) = true ∧
    isAbs (installDirOf w proj) = true ∧
    (Env.initResolved w cfg args proj base).map
        (fun r => (r.1.build_dir, r.1.deps_dir, r.1.install_dir)) =
      Except.ok (some (buildDirOf w proj), some (depsDirOf w proj),
        some (installDirOf w proj)) ∧
    (Env.initResolved w cfg args proj base).map
        (fun r => r.2.filter Event.isDirPublish) =
      Except.ok [Event.publish "build_dir" (buildDirOf w proj),
        Event.publish "deps_dir" (depsDirOf w proj),
        Event.publish "install_dir" (installDirOf w proj)] := by
  have hroot : isAbs (rootDirOf w proj) = true := isAbs_abspath _ _ hcwd
  have hb : buildDirOf w proj = joinPath (rootDirOf w proj) "build" := by
    unfold buildDirOf
    rw [hbc]
    simp only [Option.getD_none]
    exact abspath_of_isAbs _ _ (isAbs_joinPath _ _ hroot)
  have hbAbs : isAbs (buildDirOf w proj) = true := by
    rw [hb]; exact isAbs_joinPath _ _ hroot
  have hd : depsDirOf w proj = joinPath (buildDirOf w proj) "deps" := by
    unfold depsDirOf
    rw [hdc]
    simp only [Option.getD_none]
    exact abspath_of_isAbs _ _ (isAbs_joinPath _ _ hbAbs)
  have hdAbs : isAbs (depsDirOf w proj) = true := by
    rw [hd]; exact isAbs_joinPath _ _ hbAbs
  have hi : installDirOf w proj = joinPath (buildDirOf w proj) "install" := by
    unfold installDirOf
    rw [hic]
    simp only [Option.getD_none]
    exact abspath_of_isAbs _ _ (isAbs_joinPath _ _ hbAbs)
  have hiAbs : isAbs (installDirOf w proj) = true := by
    rw [hi]; exact isAbs_joinPath _ _ hbAbs
  refine ⟨hb, hd, hi, hbAbs, hdAbs, hiAbs, ?_, ?_⟩
  · unfold Env.initResolved
    rw [hvar, hspec, hcli]
    simp [Except.map]
  · unfold Env.initResolved
    rw [hvar, hspec, hcli]
    cases hw : w.isWin32 <;>
      cases hpe : w.pathExists (buildDirOf w proj) <;>
      simp [hw, hpe, Except.map, Event.isDirPublish, List.filter_append,
        List.filter]

/-- C6 witness: with the empty merged config and project at `/p`, the
defaults `/p/build`, `/p/build/deps`, `/p/build/install` are published in
that order. -/
theorem init_default_dirs_witness :
    (Env.initResolved wBase cfgResolved argsNoName projSupplied
        (earlyState (some projSupplied))).map
        (fun r => r.2.filter Event.isDirPublish) =
      Except.ok [Event.publish "build_dir" "/p/build",
        Event.publish "deps_dir" "/p/build/deps",
        Event.publish "install_dir" "/p/build/install"] :=
  (init_default_dirs wBase cfgResolved argsNoName projSupplied
    (earlyState (some projSupplied)) none (by decide) rfl rfl rfl rfl rfl
    rfl).2.2.2.2.2.2.2

/-- C7 (confirmed): in every run of the resolved-project continuation, the
events that touch the build directory's existence are exactly an optional
`rm build_dir` (present iff the directory pre-exists) followed by one
`mkdir build_dir`, and they come after all three derived-directory
publications: filtering the trace to directory publications and
destroy/create events yields precisely publish(build_dir), publish(deps_dir),
publish(install_dir), then the optional `rm`, then the single `mkdir`. -/
theorem init_destroy_create_once_after_publish (w : World) (cfg : Config)
    (args : Args) (proj : Project) (base : EnvState) (vv : Option String)
    (hvar : cfg.variant = some vv) (hspec : cfg.spec = some ())
    (hcli : args.cli_config = some ()) :
    (Env.initResolved w cfg args proj base).map
        (fun r => r.2.filter
          (fun e => Event.isDirPublish e || Event.isDestroyCreate e)) =
      Except.ok
        ([Event.publish "build_dir" (buildDirOf w proj),
          Event.publish "deps_dir" (depsDirOf w proj),
          Event.publish "install_dir" (installDirOf w proj)]
         ++ ((if w.pathExists (buildDirOf w proj)
              then [Event.rm (buildDirOf w proj)] else [])
             ++ [Event.mkdir (buildDirOf w proj)])) ∧
    (Env.initResolved w cfg args proj base).map (fun r => r.1.build_dir) =
      Except.ok (some (buildDirOf w proj)) := by
  constructor
  · unfold Env.initResolved
    rw [hvar, hspec, hcli]
    cases hw : w.isWin32 <;>
      cases hpe : w.pathExists (buildDirOf w proj) <;>
      simp [hw, hpe, Except.map, Event.isDirPublish, Event.isDestroyCreate,
        List.filter_append, List.filter]
  · unfold Env.initResolved
    rw [hvar, hspec, hcli]
    simp [Except.map]

/-- C7 witness: with `/p/build` pre-existing, the filtered trace is the
three publications, then `rm /p/build`, then `mkdir /p/build`. -/
theorem init_destroy_create_once_after_publish_witness :
    (Env.initResolved wExisting cfgResolved argsNoName projSupplied
        (earlyState (some projSupplied))).map
        (fun r => r.2.filter
          (fun e => Event.isDirPublish e || Event.isDestroyCreate e)) =
      Except.ok [Event.publish "build_dir" "/p/build",
        Event.publish "deps_dir" "/p/build/deps",
        Event.publish "install_dir" "/p/build/install",
        Event.rm "/p/build", Event.mkdir "/p/build"] :=
  (init_destroy_create_once_after_publish wExisting cfgResolved argsNoName
    projSupplied (earlyState (some projSupplied)) none rfl rfl rfl).1
